import Mathlib

/-!
Shallow embedding of the WebRTC walkie-talkie session negotiator
(`WalkieTalkieApp` in the full-duplex source file): channel documents in
the document store, the `joinFrequency` handshake, the snapshot
listeners, `hangUp`, `resetChannel`, power toggling, push-to-talk and
the frequency tuner.

Frequencies are represented in tenths of a MHz (`1055` stands for
`105.5`). The source quantizes every frequency to one decimal with
`toFixed(1)` before using it, so this representation is exact for the
values the program manipulates.
-/

/-- A WebRTC session description payload: `{sdp, type}`. -/
structure SessionDesc where
  sdp : String
  type : String
deriving DecidableEq

/-- The `offer` field written by the host:
`{sdp, type, hostId, timestamp: serverTimestamp()}`. -/
structure Offer where
  sdp : String
  type : String
  hostId : String
  timestamp : Nat
deriving DecidableEq

/-- The `answer` field written by the guest: `{type, sdp, guestId}`. -/
structure Answer where
  type : String
  sdp : String
  guestId : String
deriving DecidableEq

/-- A channel document in the `walkie_channels` collection. -/
structure ChannelDoc where
  offer : Option Offer
  answer : Option Answer
deriving DecidableEq

/-- An opaque ICE-candidate payload. -/
abbrev Candidate := String

/-- The slice of an `RTCPeerConnection` the negotiator reads and writes:
the local description (`setLocalDescription`), the remote description
(`setRemoteDescription` / `currentRemoteDescription`) and the candidates
forwarded through `addIceCandidate`. -/
structure RTCPeer where
  localDescription : Option SessionDesc
  currentRemoteDescription : Option SessionDesc
  remoteCandidates : List Candidate
deriving DecidableEq

/-- A local microphone audio track: its `enabled` flag (toggled by the
push-to-talk handlers) and whether `stop()` has been called on it. -/
structure Track where
  enabled : Bool
  stopped : Bool
deriving DecidableEq

/-- `track.stop()`. -/
def Track.stop (t : Track) : Track :=
  { t with stopped := true }

/-- Which branch of the `joinFrequency` handshake ran (instrumentation:
the source has no explicit role variable; this field records whether the
caller-`HOST` or answerer-`GUEST` branch executed). -/
inductive Role where
  | unassigned
  | host
  | guest
deriving DecidableEq

/-- A write performed against the channel document: the host's
`setDoc(callDocRef, { offer })`, the guest's
`updateDoc(callDocRef, { answer })`, or `deleteDoc` from `resetChannel`. -/
inductive ChannelWrite where
  | setOffer (callId : String) (o : Offer)
  | setAnswer (callId : String) (a : Answer)
  | deleteChannel (callId : String)
deriving DecidableEq

/-- The `walkie_channels` collection: channel documents keyed by call id. -/
abbrev Store := List (String × ChannelDoc)

/-- `getDoc(callDocRef)`. -/
def Store.getDoc (st : Store) (id : String) : Option ChannelDoc :=
  match st.find? (fun p => p.fst == id) with
  | some p => some p.snd
  | none => none

/-- `setDoc(callDocRef, d)`: replaces the whole document. -/
def Store.setDoc (st : Store) (id : String) (d : ChannelDoc) : Store :=
  (id, d) :: st.filter (fun p => !(p.fst == id))

/-- `updateDoc(callDocRef, { answer })`: merges the `answer` field into
the existing document (`updateDoc` requires the document to exist; on a
missing document the store is unchanged, modelling the rejected write). -/
def Store.updateAnswer (st : Store) (id : String) (a : Answer) : Store :=
  match st.getDoc id with
  | some d => st.setDoc id { d with answer := some a }
  | none => st

/-- `deleteDoc(callDocRef)`. -/
def Store.deleteDoc (st : Store) (id : String) : Store :=
  st.filter (fun p => !(p.fst == id))

/-- The component state the negotiation logic reads and writes:
React state (`user`, `isOn`, `frequency`, `isTalking`,
`connectionStatus`) and refs (`pc`, `localStream`, `unsubscribeRef`).
`unsubscribeRef` records whether `unsubscribeRef.current` holds the
channel-document listener's unsubscribe function (the only value the
source ever stores there); `docSubActive` / `candSubActive` record
whether the channel-document / remote-candidate `onSnapshot`
subscriptions are currently live; `role` is the instrumented handshake
role. -/
structure AppState where
  user : Option String
  isOn : Bool
  frequency : Nat
  isTalking : Bool
  connectionStatus : String
  pc : Option RTCPeer
  localStream : Option (List Track)
  unsubscribeRef : Bool
  docSubActive : Bool
  candSubActive : Bool
  role : Role
deriving DecidableEq

/-- The initial component state: `useState` initializers
(`isOn = false`, `frequency = 105.50`, `connectionStatus =
"DISCONNECTED"`) and null refs. -/
def initialAppState : AppState :=
  { user := none
    isOn := false
    frequency := 1055
    isTalking := false
    connectionStatus := "DISCONNECTED"
    pc := none
    localStream := none
    unsubscribeRef := false
    docSubActive := false
    candSubActive := false
    role := .unassigned }

/-- The channel resolver: the call id
`` `freq_${frequency.toFixed(1).replace('.', '_')}` `` for the quantized
frequency `t / 10` MHz. `toFixed(1)` renders `t / 10` as the decimal
string `repr (t / 10) ++ "." ++ repr (t % 10)`, and `replace('.', '_')`
rewrites its only dot to an underscore. -/
def callIdOfTenths (t : Nat) : String :=
  "freq_" ++ Nat.repr (t / 10) ++ "_" ++ Nat.repr (t % 10)

/-- The external inputs a single `joinFrequency` run consumes: whether
`getUserMedia` succeeded, the acquired audio tracks, the descriptions
produced by `createOffer` / `createAnswer`, and the server timestamp. -/
structure JoinInputs where
  micOk : Bool
  tracks : List Track
  offerDesc : SessionDesc
  answerDesc : SessionDesc
  now : Nat
deriving DecidableEq

/-- `setupAudio`: acquires the microphone stream and disables every
audio track (`track.enabled = false`, the initial push-to-talk mute);
returns `none` when `getUserMedia` fails. -/
def setupAudio (micOk : Bool) (tracks : List Track) : Option (List Track) :=
  if micOk then some (tracks.map (fun t => { t with enabled := false })) else none

/-- `createPeerConnection`: a fresh `RTCPeerConnection` (no descriptions
applied, no candidates forwarded yet). -/
def createPeerConnection : RTCPeer :=
  { localDescription := none, currentRemoteDescription := none, remoteCandidates := [] }

/-- `joinFrequency`: the signaling handshake. Returns the new component
state, the new store, and the list of channel-document writes performed.
Mirrors the source: bail out without a user; `setStatus("TUNING...")`;
acquire audio (bail out on failure); create the peer connection; read
the channel document once; if it is absent or lacks an `offer`, run the
HOST branch (write `offer` via `setDoc`, status
`"WAITING FOR PEER..."`, subscribe to the document — storing that
unsubscriber in `unsubscribeRef` — and to `answerCandidates`, whose
unsubscriber is discarded); otherwise run the GUEST branch (status
`"CONNECTING..."`, apply the stored `offer` as remote description, write
`answer` via `updateDoc`, subscribe to `offerCandidates`, discarding the
unsubscriber and leaving `unsubscribeRef` untouched). -/
def joinFrequency (inp : JoinInputs) (s : AppState) (st : Store) :
    AppState × Store × List ChannelWrite :=
  match s.user with
  | none => (s, st, [])
  | some uid =>
    let s := { s with connectionStatus := "TUNING..." }
    match setupAudio inp.micOk inp.tracks with
    | none => (s, st, [])
    | some stream =>
      let s := { s with localStream := some stream, pc := some createPeerConnection }
      let callId := callIdOfTenths s.frequency
      let callDoc := st.getDoc callId
      match callDoc.bind ChannelDoc.offer with
      | none =>
        let offer : Offer :=
          { sdp := inp.offerDesc.sdp, type := inp.offerDesc.type
            hostId := uid, timestamp := inp.now }
        let st := st.setDoc callId { offer := some offer, answer := none }
        let s :=
          { s with
            pc := some { createPeerConnection with localDescription := some inp.offerDesc }
            connectionStatus := "WAITING FOR PEER..."
            unsubscribeRef := true
            docSubActive := true
            candSubActive := true
            role := .host }
        (s, st, [.setOffer callId offer])
      | some o =>
        let s := { s with connectionStatus := "CONNECTING..." }
        let answer : Answer :=
          { type := inp.answerDesc.type, sdp := inp.answerDesc.sdp, guestId := uid }
        let s :=
          { s with
            pc := some { createPeerConnection with
              currentRemoteDescription := some { sdp := o.sdp, type := o.type }
              localDescription := some inp.answerDesc }
            candSubActive := true
            role := .guest }
        let st := st.updateAnswer callId answer
        (s, st, [.setAnswer callId answer])

/-- The host's channel-document `onSnapshot` callback: if
`pc.current.currentRemoteDescription` is unset and the snapshot carries
an `answer`, apply it as the remote description and
`setStatus("CONNECTING...")`; otherwise do nothing. Returns `none` when
`pc.current` is null (the callback body dereferences it and throws). -/
def answerSnapshotCb (snap : Option ChannelDoc) (s : AppState) : Option AppState :=
  match s.pc with
  | none => none
  | some pc =>
    match pc.currentRemoteDescription, snap.bind ChannelDoc.answer with
    | none, some a =>
      some { s with
        pc := some { pc with currentRemoteDescription := some { sdp := a.sdp, type := a.type } }
        connectionStatus := "CONNECTING..." }
    | _, _ => some s

/-- The remote-candidate `onSnapshot` callback: forwards each added
candidate through `pc.current.addIceCandidate`. Returns `none` when a
candidate arrives while `pc.current` is null (the callback dereferences
the cleared ref and throws). -/
def candidateSnapshotCb (cands : List Candidate) (s : AppState) : Option AppState :=
  match s.pc with
  | none => if cands.isEmpty then some s else none
  | some pc =>
    some { s with pc := some { pc with remoteCandidates := pc.remoteCandidates ++ cands } }

/-- Deliver a sequence of channel-document change notifications to the
host's `onSnapshot` callback. -/
def runAnswerSnaps (snaps : List (Option ChannelDoc)) (s : AppState) : Option AppState :=
  match snaps with
  | [] => some s
  | snap :: rest =>
    match answerSnapshotCb snap s with
    | some s1 => runAnswerSnaps rest s1
    | none => none

/-- `hangUp`: stop every local track, close and clear the peer
connection, invoke and clear the unsubscribe function stored in
`unsubscribeRef` (releasing the channel-document subscription when it
holds one), and `setConnectionStatus("DISCONNECTED")`. -/
def hangUp (s : AppState) : AppState :=
  let s := { s with localStream := s.localStream.map (fun ts : List Track => ts.map Track.stop) }
  let s := { s with pc := none }
  let s :=
    if s.unsubscribeRef then
      { s with docSubActive := false, unsubscribeRef := false }
    else s
  { s with connectionStatus := "DISCONNECTED" }

/-- `resetChannel`: delete the channel document for the current
frequency, then call `hangUp()` (success path of the `try` block). -/
def resetChannel (s : AppState) (st : Store) : AppState × Store × List ChannelWrite :=
  let callId := callIdOfTenths s.frequency
  let st := st.deleteDoc callId
  let s := hangUp s
  (s, st, [.deleteChannel callId])

/-- `togglePower`: power off runs `hangUp`; power on runs
`joinFrequency`. -/
def togglePower (inp : JoinInputs) (s : AppState) (st : Store) :
    AppState × Store × List ChannelWrite :=
  if s.isOn then (hangUp { s with isOn := false }, st, [])
  else joinFrequency inp { s with isOn := true } st

/-- `startTalk`: ignored while powered off; otherwise set `isTalking`
and enable every local audio track. -/
def startTalk (s : AppState) : AppState :=
  if s.isOn then
    { s with
      isTalking := true
      localStream := s.localStream.map (fun ts : List Track => ts.map (fun t => { t with enabled := true })) }
  else s

/-- `stopTalk`: ignored while powered off; otherwise clear `isTalking`
and disable every local audio track. -/
def stopTalk (s : AppState) : AppState :=
  if s.isOn then
    { s with
      isTalking := false
      localStream := s.localStream.map (fun ts : List Track => ts.map (fun t => { t with enabled := false })) }
  else s

/-- The frequency updater `parseFloat((prev + delta).toFixed(1))`
followed by the clamp to `[87.5, 108.0]`, in tenths of a MHz. -/
def adjustFrequencyTenths (prev : Nat) (delta : Int) : Nat :=
  let newFreq : Int := (prev : Int) + delta
  if newFreq < 875 then 875 else if newFreq > 1080 then 1080 else newFreq.toNat

/-- `adjustFrequency`: when a call is live (`connectionStatus` is not
`"DISCONNECTED"`), ask for confirmation — declining returns without any
change, confirming runs `hangUp` — then update the clamped frequency and
power off. -/
def adjustFrequency (delta : Int) (confirmOk : Bool) (s : AppState) : AppState :=
  if s.connectionStatus = "DISCONNECTED" then
    { s with frequency := adjustFrequencyTenths s.frequency delta, isOn := false }
  else if confirmOk then
    let s1 := hangUp s
    { s1 with frequency := adjustFrequencyTenths s1.frequency delta, isOn := false }
  else s

/-- `onconnectionstatechange`: `"connected"` sets status `"CONNECTED"`;
`"disconnected"` and `"failed"` set `"DISCONNECTED"` and run `hangUp`;
every other transport state is ignored. The handler belongs to the peer
connection, so nothing fires without one. -/
def onConnectionStateChange (ts : String) (s : AppState) : AppState :=
  match s.pc with
  | none => s
  | some _ =>
    if ts = "connected" then { s with connectionStatus := "CONNECTED" }
    else if ts = "disconnected" ∨ ts = "failed" then
      hangUp { s with connectionStatus := "DISCONNECTED" }
    else s

/-- The external events that drive the component: auth changes, the
power button, channel-document and candidate snapshot deliveries (each
notification carries the observed payload, modelling the store's
eventually-consistent at-least-once delivery), transport connectivity
events, the push-to-talk handlers, the tuner and the reset button. -/
inductive Event where
  | authChange (u : Option String)
  | powerToggle (inp : JoinInputs)
  | docSnap (snap : Option ChannelDoc)
  | candSnap (cands : List Candidate)
  | connChange (ts : String)
  | startTalkEv
  | stopTalkEv
  | adjustFreq (delta : Int) (confirmOk : Bool)
  | resetEv

/-- Component state plus the channel store. -/
abbrev World := AppState × Store

/-- One event step. Snapshot callbacks only run while their subscription
is live; a callback that throws (cleared `pc` ref) leaves the state
unchanged — the exception escapes before any mutation. -/
def step (w : World) : Event → World
  | .authChange u => ({ w.1 with user := u }, w.2)
  | .powerToggle inp =>
    let r := togglePower inp w.1 w.2
    (r.1, r.2.1)
  | .docSnap snap =>
    (if w.1.docSubActive then (answerSnapshotCb snap w.1).getD w.1 else w.1, w.2)
  | .candSnap cands =>
    (if w.1.candSubActive then (candidateSnapshotCb cands w.1).getD w.1 else w.1, w.2)
  | .connChange ts => (onConnectionStateChange ts w.1, w.2)
  | .startTalkEv => (startTalk w.1, w.2)
  | .stopTalkEv => (stopTalk w.1, w.2)
  | .adjustFreq d ok => (adjustFrequency d ok w.1, w.2)
  | .resetEv =>
    let r := resetChannel w.1 w.2
    (r.1, r.2.1)

/-- Run a sequence of events. -/
def steps (w : World) (evs : List Event) : World :=
  evs.foldl step w

/-- One event's effect on whether the push-to-talk control is held. -/
def heldStep (held : Bool) : Event → Bool
  | .startTalkEv => true
  | .stopTalkEv => false
  | _ => held

/-- Whether the push-to-talk control is held after `evs`: the last
push-to-talk event was `startTalkEv`. -/
def heldAfter (held : Bool) (evs : List Event) : Bool :=
  evs.foldl heldStep held

/-- Sample external inputs for concrete executions. -/
def sampleInputs : JoinInputs :=
  { micOk := true
    tracks := [{ enabled := true, stopped := false }]
    offerDesc := { sdp := "osdp", type := "offer" }
    answerDesc := { sdp := "asdp", type := "answer" }
    now := 7 }

/-- The initial state with a signed-in anonymous user. -/
def sampleUserState : AppState :=
  { initialAppState with user := some "u" }

/-- Reading a document right after `setDoc` returns what was written. -/
theorem Store.getDoc_setDoc_self (st : Store) (id : String) (d : ChannelDoc) :
    (st.setDoc id d).getDoc id = some d := by
  simp [Store.setDoc, Store.getDoc, List.find?]

/-- Reading a document right after `deleteDoc` finds nothing. -/
theorem Store.getDoc_deleteDoc_self (st : Store) (id : String) :
    (st.deleteDoc id).getDoc id = none := by
  induction st with
  | nil => rfl
  | cons p rest ih =>
    by_cases h : p.fst == id
    · simpa [Store.deleteDoc, List.filter, h] using ih
    · simp only [Store.deleteDoc, List.filter, h, Bool.not_false] at ih ⊢
      simpa [Store.getDoc, List.find?, h] using ih

theorem reprInjOnQuotients : ∀ q1 ∈ Finset.Icc 87 108, ∀ q2 ∈ Finset.Icc 87 108,
    Nat.repr q1 = Nat.repr q2 → q1 = q2 := by
  decide

theorem reprInjOnDigits : ∀ r1 ∈ Finset.range 10, ∀ r2 ∈ Finset.range 10,
    Nat.repr r1 = Nat.repr r2 → r1 = r2 := by
  decide

theorem reprLenOnDigits : ∀ r ∈ Finset.range 10, (Nat.repr r).data.length = 1 := by
  decide

/-- C8: the channel resolver is a (pure, deterministic) function of the
quantized frequency, and it is injective on the valid frequency range
`[87.5, 108.0]`: distinct quantized frequencies produce distinct call
ids. -/
theorem callId_injective_on_valid :
    ∀ t1 ∈ Finset.Icc 875 1080, ∀ t2 ∈ Finset.Icc 875 1080,
      callIdOfTenths t1 = callIdOfTenths t2 → t1 = t2 := by
  intro t1 h1 t2 h2 heq
  simp only [Finset.mem_Icc] at h1 h2
  have hq1 : t1 / 10 ∈ Finset.Icc 87 108 := by
    simp only [Finset.mem_Icc]; omega
  have hq2 : t2 / 10 ∈ Finset.Icc 87 108 := by
    simp only [Finset.mem_Icc]; omega
  have hr1 : t1 % 10 ∈ Finset.range 10 := by
    simp only [Finset.mem_range]; omega
  have hr2 : t2 % 10 ∈ Finset.range 10 := by
    simp only [Finset.mem_range]; omega
  have hdata : ("freq_".data ++ (Nat.repr (t1 / 10)).data ++ "_".data) ++ (Nat.repr (t1 % 10)).data
      = ("freq_".data ++ (Nat.repr (t2 / 10)).data ++ "_".data) ++ (Nat.repr (t2 % 10)).data := by
    have := congrArg String.data heq
    simpa [callIdOfTenths, String.data_append, List.append_assoc] using this
  obtain ⟨hfront, hlastr⟩ :=
    List.append_inj' hdata (by rw [reprLenOnDigits _ hr1, reprLenOnDigits _ hr2])
  have hr : t1 % 10 = t2 % 10 := reprInjOnDigits _ hr1 _ hr2 (String.ext hlastr)
  obtain ⟨hfront3, -⟩ := List.append_inj' hfront rfl
  obtain ⟨-, hq⟩ := List.append_inj hfront3 rfl
  have hqeq : t1 / 10 = t2 / 10 := reprInjOnQuotients _ hq1 _ hq2 (String.ext hq)
  omega

theorem callId_injective_on_valid_witness :
    1055 ∈ Finset.Icc 875 1080 ∧ 1080 ∈ Finset.Icc 875 1080 ∧ (1055 : ℕ) = 1055 :=
  ⟨by decide, by decide,
    callId_injective_on_valid 1055 (by decide) 1055 (by decide) rfl⟩

/-- A single tuner step always lands inside `[87.5, 108.0]`. -/
theorem adjustFrequencyTenths_mem (prev : Nat) (delta : Int) :
    875 ≤ adjustFrequencyTenths prev delta ∧ adjustFrequencyTenths prev delta ≤ 1080 := by
  simp only [adjustFrequencyTenths]
  split
  · omega
  · split
    · omega
    · omega

theorem adjustFrequencyTenths_fold_mem (ds : List Int) (start : Nat)
    (h1 : 875 ≤ start) (h2 : start ≤ 1080) :
    875 ≤ ds.foldl adjustFrequencyTenths start ∧ ds.foldl adjustFrequencyTenths start ≤ 1080 := by
  induction ds generalizing start with
  | nil => exact ⟨h1, h2⟩
  | cons d rest ih =>
    have hd := adjustFrequencyTenths_mem start d
    exact ih (adjustFrequencyTenths start d) hd.1 hd.2

/-- C9: starting from the initial frequency `105.5`, any sequence of
`adjustFrequency(±0.1)` steps keeps the frequency inside
`[87.5, 108.0]` (underflow clamps to `87.5`, overflow to `108.0`). The
embedding carries frequencies in tenths of a MHz, so every reachable
value is quantized to exactly one decimal by representation. -/
theorem frequency_stays_in_band (ds : List Int)
    (_hd : ∀ d ∈ ds, d = 1 ∨ d = -1) :
    875 ≤ ds.foldl adjustFrequencyTenths 1055 ∧
      ds.foldl adjustFrequencyTenths 1055 ≤ 1080 :=
  adjustFrequencyTenths_fold_mem ds 1055 (by omega) (by omega)

theorem frequency_stays_in_band_witness :
    (∀ d ∈ ([1, -1, 1, 1] : List Int), d = 1 ∨ d = -1) ∧
      875 ≤ ([1, -1, 1, 1] : List Int).foldl adjustFrequencyTenths 1055 ∧
      ([1, -1, 1, 1] : List Int).foldl adjustFrequencyTenths 1055 ≤ 1080 :=
  ⟨by decide, frequency_stays_in_band [1, -1, 1, 1] (by decide)⟩

/-- C1: a join that finds the channel document absent or without an
`offer` takes the Host branch and performs exactly one channel write —
the `offer` (its session description, host identity, creation
timestamp); a join that finds an `offer` takes the Guest branch, applies
that offer as the remote description, and performs exactly one channel
write — the `answer`. -/
theorem join_roles_and_writes (inp : JoinInputs) (s : AppState) (st : Store)
    (uid : String) (hu : s.user = some uid) (hm : inp.micOk = true) :
    ((st.getDoc (callIdOfTenths s.frequency)).bind ChannelDoc.offer = none →
      (joinFrequency inp s st).1.role = Role.host ∧
      (joinFrequency inp s st).2.2 =
        [ChannelWrite.setOffer (callIdOfTenths s.frequency)
          { sdp := inp.offerDesc.sdp, type := inp.offerDesc.type
            hostId := uid, timestamp := inp.now }]) ∧
    (∀ o, (st.getDoc (callIdOfTenths s.frequency)).bind ChannelDoc.offer = some o →
      (joinFrequency inp s st).1.role = Role.guest ∧
      (joinFrequency inp s st).2.2 =
        [ChannelWrite.setAnswer (callIdOfTenths s.frequency)
          { type := inp.answerDesc.type, sdp := inp.answerDesc.sdp, guestId := uid }] ∧
      (joinFrequency inp s st).1.pc = some
        { localDescription := some inp.answerDesc
          currentRemoteDescription := some { sdp := o.sdp, type := o.type }
          remoteCandidates := [] }) := by
  constructor
  · intro hempty
    simp [joinFrequency, hu, hm, setupAudio, hempty]
  · intro o hoffer
    simp [joinFrequency, hu, hm, setupAudio, hoffer, createPeerConnection]

theorem join_roles_and_writes_witness :
    ((joinFrequency sampleInputs sampleUserState []).1.role = Role.host ∧
      (joinFrequency sampleInputs sampleUserState []).2.2 =
        [ChannelWrite.setOffer (callIdOfTenths sampleUserState.frequency)
          { sdp := "osdp", type := "offer", hostId := "u", timestamp := 7 }]) :=
  (join_roles_and_writes sampleInputs sampleUserState [] "u" rfl rfl).1 rfl

/-- Once the remote description is set, the host's channel-document
listener ignores every further notification. -/
theorem runAnswerSnaps_frozen (s : AppState) (p : RTCPeer) (d : SessionDesc)
    (hpc : s.pc = some p) (hd : p.currentRemoteDescription = some d) :
    ∀ snaps : List (Option ChannelDoc), runAnswerSnaps snaps s = some s := by
  have hcb : ∀ snap : Option ChannelDoc, answerSnapshotCb snap s = some s := by
    intro snap
    simp [answerSnapshotCb, hpc, hd]
  intro snaps
  induction snaps with
  | nil => rfl
  | cons snap rest ih =>
    simp [runAnswerSnaps, hcb snap, ih]

/-- C2: the remote description is set at most once per session. When the
host's channel-document listener first observes an `answer` with no
remote description applied yet, it applies it; after that, every further
change notification — whatever document it carries and however many
times it is delivered — leaves the session unchanged. -/
theorem remote_description_set_once (s : AppState) (p : RTCPeer)
    (snap : Option ChannelDoc) (a : Answer)
    (hpc : s.pc = some p) (hnone : p.currentRemoteDescription = none)
    (hans : snap.bind ChannelDoc.answer = some a) :
    ∃ s1 p1, answerSnapshotCb snap s = some s1 ∧ s1.pc = some p1 ∧
      p1.currentRemoteDescription = some { sdp := a.sdp, type := a.type } ∧
      ∀ snaps : List (Option ChannelDoc), runAnswerSnaps snaps s1 = some s1 := by
  refine ⟨{ s with
      pc := some { p with currentRemoteDescription := some { sdp := a.sdp, type := a.type } }
      connectionStatus := "CONNECTING..." }, _, ?_, rfl, rfl, ?_⟩
  · simp [answerSnapshotCb, hpc, hnone, hans]
  · exact runAnswerSnaps_frozen _ _ { sdp := a.sdp, type := a.type } rfl rfl

theorem remote_description_set_once_witness :
    answerSnapshotCb (some { offer := none, answer := some { type := "answer", sdp := "asdp", guestId := "g" } })
        { sampleUserState with pc := some createPeerConnection } ≠ none := by
  obtain ⟨s1, p1, hcb, -, -, -⟩ :=
    remote_description_set_once
      { sampleUserState with pc := some createPeerConnection }
      createPeerConnection
      (some { offer := none, answer := some { type := "answer", sdp := "asdp", guestId := "g" } })
      { type := "answer", sdp := "asdp", guestId := "g" }
      rfl rfl rfl
  simp [hcb]

/-- C7: teardown is idempotent. `hangUp` twice produces exactly the end
state of `hangUp` once, and that end state has the peer connection
cleared, the stored unsubscribe handle cleared, status
`"DISCONNECTED"`, and every local track stopped; running it on an
already-torn-down state is a no-op. -/
theorem hangUp_idempotent (s : AppState) :
    hangUp (hangUp s) = hangUp s ∧
    (hangUp s).pc = none ∧
    (hangUp s).unsubscribeRef = false ∧
    (hangUp s).connectionStatus = "DISCONNECTED" ∧
    ∀ ts, (hangUp s).localStream = some ts → ∀ t ∈ ts, t.stopped = true := by
  refine ⟨?_, ?_, ?_, rfl, ?_⟩
  · cases hsub : s.unsubscribeRef <;>
      cases hls : s.localStream <;>
        simp [hangUp, hsub, hls, List.map_map, Function.comp, Track.stop]
  · cases hsub : s.unsubscribeRef <;> simp [hangUp, hsub]
  · cases hsub : s.unsubscribeRef <;> simp [hangUp, hsub]
  · intro ts hts t ht
    cases hsub : s.unsubscribeRef <;> cases hls : s.localStream <;>
      simp [hangUp, hsub, hls] at hts
    · subst hts
      obtain ⟨t0, -, rfl⟩ := List.mem_map.mp ht
      rfl
    · subst hts
      obtain ⟨t0, -, rfl⟩ := List.mem_map.mp ht
      rfl

theorem hangUp_idempotent_witness :
    hangUp (hangUp (joinFrequency sampleInputs sampleUserState []).1) =
        hangUp (joinFrequency sampleInputs sampleUserState []).1 ∧
      (Track.mk false true).stopped = true :=
  ⟨(hangUp_idempotent (joinFrequency sampleInputs sampleUserState []).1).1,
    (hangUp_idempotent (joinFrequency sampleInputs sampleUserState []).1).2.2.2.2
      [{ enabled := false, stopped := true }] (by decide)
      { enabled := false, stopped := true } (by decide)⟩

/-- C3 (code bug): after a host join, `hangUp` releases only the
channel-document subscription held in `unsubscribeRef`; the
remote-candidate subscription — whose unsubscribe function was discarded
at creation — is still active after `hangUp` returns, and the next
candidate delivery makes its callback dereference the cleared
`pc.current` (it throws). -/
theorem hangUp_leaks_candidate_subscription :
    (hangUp (joinFrequency sampleInputs sampleUserState []).1).docSubActive = false ∧
    (hangUp (joinFrequency sampleInputs sampleUserState []).1).unsubscribeRef = false ∧
    (hangUp (joinFrequency sampleInputs sampleUserState []).1).candSubActive = true ∧
    candidateSnapshotCb ["cand"]
      (hangUp (joinFrequency sampleInputs sampleUserState []).1) = none := by
  decide

/-- C5 (counterexample): `resetChannel` does not leave the local session
untouched — on a freshly joined host session it clears the peer
connection, stops the local tracks and resets the connection state,
because it invokes `hangUp()` itself. -/
theorem resetChannel_closes_session :
    (joinFrequency sampleInputs sampleUserState []).1.pc ≠ none ∧
    (resetChannel (joinFrequency sampleInputs sampleUserState []).1
      (joinFrequency sampleInputs sampleUserState []).2.1).1.pc = none ∧
    (resetChannel (joinFrequency sampleInputs sampleUserState []).1
      (joinFrequency sampleInputs sampleUserState []).2.1).1 ≠
      (joinFrequency sampleInputs sampleUserState []).1 := by
  decide

/-- C5 (amended): `resetChannel(frequency)` deletes the channel document
derived from the frequency (its only channel write) and then itself
closes the local session by calling `hangUp` — peer connection cleared,
tracks stopped, stored subscription handle cleared, state
`"DISCONNECTED"`; the caller does not need a separate `leave()`. -/
theorem resetChannel_spec (s : AppState) (st : Store) :
    (resetChannel s st).2.1.getDoc (callIdOfTenths s.frequency) = none ∧
    (resetChannel s st).2.2 = [ChannelWrite.deleteChannel (callIdOfTenths s.frequency)] ∧
    (resetChannel s st).1 = hangUp s ∧
    (resetChannel s st).1.pc = none ∧
    (resetChannel s st).1.connectionStatus = "DISCONNECTED" := by
  refine ⟨Store.getDoc_deleteDoc_self st (callIdOfTenths s.frequency), rfl, rfl, ?_, rfl⟩
  exact (hangUp_idempotent s).2.1

/-- C6 (counterexample): `join` is not an idempotent no-op when already
joined. After a first join created a host session on the empty channel,
a second join on the same frequency runs the handshake again: it finds
its own `offer`, takes the Guest branch, performs an additional channel
write (the `answer`), and replaces the session state. -/
theorem second_join_not_noop :
    (joinFrequency sampleInputs sampleUserState []).1.role = Role.host ∧
    (joinFrequency sampleInputs
        (joinFrequency sampleInputs sampleUserState []).1
        (joinFrequency sampleInputs sampleUserState []).2.1).1.role = Role.guest ∧
    (joinFrequency sampleInputs
        (joinFrequency sampleInputs sampleUserState []).1
        (joinFrequency sampleInputs sampleUserState []).2.1).2.2 ≠ [] ∧
    (joinFrequency sampleInputs
        (joinFrequency sampleInputs sampleUserState []).1
        (joinFrequency sampleInputs sampleUserState []).2.1).1 ≠
      (joinFrequency sampleInputs sampleUserState []).1 := by
  decide

/-- C6 (amended): `join(frequency)` performs no already-joined guard.
Whenever a first join created a Host session on an empty channel, a
second join on the same frequency re-runs the handshake, observes the
session's own `offer`, takes the Guest branch and performs one
additional channel write — the `answer` — instead of being a no-op. -/
theorem join_not_idempotent (inp1 inp2 : JoinInputs) (s : AppState) (st : Store)
    (uid : String) (hu : s.user = some uid) (hm1 : inp1.micOk = true)
    (hm2 : inp2.micOk = true)
    (hempty : (st.getDoc (callIdOfTenths s.frequency)).bind ChannelDoc.offer = none) :
    (joinFrequency inp1 s st).1.role = Role.host ∧
    (joinFrequency inp2 (joinFrequency inp1 s st).1
        (joinFrequency inp1 s st).2.1).1.role = Role.guest ∧
    (joinFrequency inp2 (joinFrequency inp1 s st).1
        (joinFrequency inp1 s st).2.1).2.2 =
      [ChannelWrite.setAnswer (callIdOfTenths s.frequency)
        { type := inp2.answerDesc.type, sdp := inp2.answerDesc.sdp, guestId := uid }] := by
  simp [joinFrequency, hu, hm1, hm2, setupAudio, hempty, Store.getDoc_setDoc_self]

theorem join_not_idempotent_witness :
    (joinFrequency sampleInputs sampleUserState []).1.role = Role.host ∧
    (joinFrequency sampleInputs (joinFrequency sampleInputs sampleUserState []).1
        (joinFrequency sampleInputs sampleUserState []).2.1).1.role = Role.guest ∧
    (joinFrequency sampleInputs (joinFrequency sampleInputs sampleUserState []).1
        (joinFrequency sampleInputs sampleUserState []).2.1).2.2 =
      [ChannelWrite.setAnswer (callIdOfTenths sampleUserState.frequency)
        { type := "answer", sdp := "asdp", guestId := "u" }] :=
  join_not_idempotent sampleInputs sampleInputs sampleUserState [] "u" rfl rfl rfl rfl

/-- The connection statuses the component actually stores: the three
advertised values plus the two transient strings `setStatus` writes
during the handshake. -/
def StatusOK (s : AppState) : Prop :=
  s.connectionStatus = "DISCONNECTED" ∨ s.connectionStatus = "TUNING..." ∨
    s.connectionStatus = "WAITING FOR PEER..." ∨ s.connectionStatus = "CONNECTING..." ∨
    s.connectionStatus = "CONNECTED"

theorem statusOK_hangUp (s : AppState) : StatusOK (hangUp s) :=
  Or.inl rfl

theorem statusOK_join (inp : JoinInputs) (s : AppState) (st : Store)
    (h : StatusOK s) : StatusOK (joinFrequency inp s st).1 := by
  cases hu : s.user with
  | none => simpa [joinFrequency, hu] using h
  | some uid =>
    cases hm : inp.micOk with
    | false => simp [joinFrequency, hu, hm, setupAudio, StatusOK]
    | true =>
      cases hof : (st.getDoc (callIdOfTenths s.frequency)).bind ChannelDoc.offer with
      | none => simp [joinFrequency, hu, hm, setupAudio, hof, StatusOK]
      | some o => simp [joinFrequency, hu, hm, setupAudio, hof, StatusOK]

theorem statusOK_answerSnapshotCb (snap : Option ChannelDoc) (s : AppState)
    (h : StatusOK s) : StatusOK ((answerSnapshotCb snap s).getD s) := by
  cases hpc : s.pc with
  | none => simpa [answerSnapshotCb, hpc] using h
  | some p =>
    cases hrd : p.currentRemoteDescription with
    | some d => simpa [answerSnapshotCb, hpc, hrd] using h
    | none =>
      cases hans : snap.bind ChannelDoc.answer with
      | none => simpa [answerSnapshotCb, hpc, hrd, hans] using h
      | some a => simp [answerSnapshotCb, hpc, hrd, hans, StatusOK]

theorem statusOK_candidateSnapshotCb (cands : List Candidate) (s : AppState)
    (h : StatusOK s) : StatusOK ((candidateSnapshotCb cands s).getD s) := by
  cases hpc : s.pc with
  | none =>
    cases hc : cands.isEmpty <;> simpa [candidateSnapshotCb, hpc, hc] using h
  | some p => simpa [candidateSnapshotCb, hpc, StatusOK] using h

theorem statusOK_connChange (ts : String) (s : AppState)
    (h : StatusOK s) : StatusOK (onConnectionStateChange ts s) := by
  cases hpc : s.pc with
  | none => simpa [onConnectionStateChange, hpc] using h
  | some p =>
    by_cases hc : ts = "connected"
    · simp [onConnectionStateChange, hpc, hc, StatusOK]
    · by_cases hd : ts = "disconnected" ∨ ts = "failed"
      · simpa [onConnectionStateChange, hpc, hc, hd] using statusOK_hangUp _
      · simpa [onConnectionStateChange, hpc, hc, hd] using h

theorem statusOK_step (w : World) (e : Event) (h : StatusOK w.1) :
    StatusOK (step w e).1 := by
  cases e with
  | authChange u => simpa [step, StatusOK] using h
  | powerToggle inp =>
    by_cases hon : w.1.isOn = true
    · simpa [step, togglePower, hon] using statusOK_hangUp { w.1 with isOn := false }
    · have := statusOK_join inp { w.1 with isOn := true } w.2 (by simpa [StatusOK] using h)
      simpa [step, togglePower, hon] using this
  | docSnap snap =>
    by_cases hsub : w.1.docSubActive = true
    · simpa [step, hsub] using statusOK_answerSnapshotCb snap w.1 h
    · simpa [step, hsub] using h
  | candSnap cands =>
    by_cases hsub : w.1.candSubActive = true
    · simpa [step, hsub] using statusOK_candidateSnapshotCb cands w.1 h
    · simpa [step, hsub] using h
  | connChange ts => simpa [step] using statusOK_connChange ts w.1 h
  | startTalkEv =>
    by_cases hon : w.1.isOn = true <;> simpa [step, startTalk, hon, StatusOK] using h
  | stopTalkEv =>
    by_cases hon : w.1.isOn = true <;> simpa [step, stopTalk, hon, StatusOK] using h
  | adjustFreq d ok =>
    by_cases hdis : w.1.connectionStatus = "DISCONNECTED"
    · simp [step, adjustFrequency, hdis, StatusOK]
    · by_cases hok : ok = true
      · simpa [step, adjustFrequency, hdis, hok, StatusOK] using
          statusOK_hangUp w.1
      · simpa [step, adjustFrequency, hdis, hok] using h
  | resetEv => simpa [step, resetChannel] using statusOK_hangUp w.1

/-- C4 (amended): at every reachable point of every execution, the
connection state stored in `connectionStatus` is one of exactly five
strings: the advertised `DISCONNECTED`, `CONNECTED`, plus the transient
`TUNING...`, `WAITING FOR PEER...` and `CONNECTING...` (the latter, with
its ellipsis, is also what the handshake stores in place of a bare
`CONNECTING`). -/
theorem connectionStatus_five_values (st0 : Store) (evs : List Event) :
    StatusOK (steps (initialAppState, st0) evs).1 := by
  suffices h : ∀ w : World, StatusOK w.1 → StatusOK (steps w evs).1 from
    h (initialAppState, st0) (Or.inl rfl)
  induction evs with
  | nil => exact fun w h => h
  | cons e rest ih =>
    intro w h
    simpa [steps, List.foldl] using ih (step w e) (statusOK_step w e h)

/-- C4 (counterexample): the exposed connection state is not confined to
`{DISCONNECTED, CONNECTING, CONNECTED}` — right after a host join the
component stores `"WAITING FOR PEER..."`, which is none of the three. -/
theorem connectionStatus_outside_three_values :
    (steps (initialAppState, ([] : Store))
        [Event.authChange (some "u"), Event.powerToggle sampleInputs]).1.connectionStatus =
      "WAITING FOR PEER..." ∧
    ¬((steps (initialAppState, ([] : Store))
        [Event.authChange (some "u"), Event.powerToggle sampleInputs]).1.connectionStatus =
          "DISCONNECTED" ∨
      (steps (initialAppState, ([] : Store))
        [Event.authChange (some "u"), Event.powerToggle sampleInputs]).1.connectionStatus =
          "CONNECTING" ∨
      (steps (initialAppState, ([] : Store))
        [Event.authChange (some "u"), Event.powerToggle sampleInputs]).1.connectionStatus =
          "CONNECTED") := by
  decide

theorem hangUp_localStream (s : AppState) :
    (hangUp s).localStream = s.localStream.map (fun ts : List Track => ts.map Track.stop) := by
  cases hsub : s.unsubscribeRef <;> simp [hangUp, hsub]

theorem hangUp_stream_stopped (s : AppState) :
    ∀ ts, (hangUp s).localStream = some ts → ∀ t ∈ ts, t.stopped = true := by
  intro ts hts t ht
  rw [hangUp_localStream] at hts
  cases hls : s.localStream with
  | none => simp [hls] at hts
  | some ts0 =>
    rw [hls] at hts
    have hmap : List.map Track.stop ts0 = ts := by simpa using hts
    subst hmap
    obtain ⟨t0, -, rfl⟩ := List.mem_map.mp ht
    rfl

/-- The push-to-talk invariant: any un-stopped local track forces the
connection state away from `"DISCONNECTED"`, and any live (enabled and
un-stopped) local track can only exist while the push-to-talk control is
held and the power is on. -/
def PTTInv (s : AppState) (held : Bool) : Prop :=
  (∀ ts, s.localStream = some ts → ∀ t ∈ ts, t.stopped = false →
    s.connectionStatus ≠ "DISCONNECTED") ∧
  (∀ ts, s.localStream = some ts → ∀ t ∈ ts, t.enabled = true → t.stopped = false →
    held = true ∧ s.isOn = true)

theorem pttInv_hangUp (s : AppState) (held : Bool) : PTTInv (hangUp s) held := by
  constructor
  · intro ts hts t ht hstop
    have hst := hangUp_stream_stopped s ts hts t ht
    simp [hst] at hstop
  · intro ts hts t ht hen hstop
    have hst := hangUp_stream_stopped s ts hts t ht
    simp [hst] at hstop

theorem pttInv_powerOn (inp : JoinInputs) (s : AppState) (st : Store) (held : Bool)
    (hoff : s.isOn = false) (h : PTTInv s held) :
    PTTInv (joinFrequency inp { s with isOn := true } st).1 held := by
  obtain ⟨h1, h2⟩ := h
  cases hu : s.user with
  | none =>
    constructor
    · intro ts hts t ht hstop
      simp only [joinFrequency, hu] at hts ⊢
      exact h1 ts (by simpa using hts) t ht hstop
    · intro ts hts t ht hen hstop
      simp only [joinFrequency, hu] at hts
      have := (h2 ts (by simpa using hts) t ht hen hstop).2
      simp [hoff] at this
  | some uid =>
    cases hm : inp.micOk with
    | false =>
      constructor
      · intro ts hts t ht hstop
        simp [joinFrequency, hu, hm, setupAudio]
      · intro ts hts t ht hen hstop
        simp only [joinFrequency, hu, hm, setupAudio] at hts
        simp only [Bool.false_eq_true, if_false] at hts
        have := (h2 ts (by simpa using hts) t ht hen hstop).2
        simp [hoff] at this
    | true =>
      cases hof : (st.getDoc (callIdOfTenths s.frequency)).bind ChannelDoc.offer with
      | none =>
        constructor
        · intro ts hts t ht hstop
          simp [joinFrequency, hu, hm, setupAudio, hof]
        · intro ts hts t ht hen hstop
          simp only [joinFrequency, hu, hm, setupAudio, hof] at hts
          simp only [if_true] at hts
          have hmap : List.map (fun t => { t with enabled := false }) inp.tracks = ts := by
            simpa using hts
          subst hmap
          obtain ⟨t0, -, rfl⟩ := List.mem_map.mp ht
          simp at hen
      | some o =>
        constructor
        · intro ts hts t ht hstop
          simp [joinFrequency, hu, hm, setupAudio, hof]
        · intro ts hts t ht hen hstop
          simp only [joinFrequency, hu, hm, setupAudio, hof] at hts
          simp only [if_true] at hts
          have hmap : List.map (fun t => { t with enabled := false }) inp.tracks = ts := by
            simpa using hts
          subst hmap
          obtain ⟨t0, -, rfl⟩ := List.mem_map.mp ht
          simp at hen

theorem pttInv_answerSnapshotCb (snap : Option ChannelDoc) (s : AppState) (held : Bool)
    (h : PTTInv s held) : PTTInv ((answerSnapshotCb snap s).getD s) held := by
  obtain ⟨h1, h2⟩ := h
  cases hpc : s.pc with
  | none => simpa [answerSnapshotCb, hpc] using ⟨h1, h2⟩
  | some p =>
    cases hrd : p.currentRemoteDescription with
    | some d => simpa [answerSnapshotCb, hpc, hrd] using ⟨h1, h2⟩
    | none =>
      cases hans : snap.bind ChannelDoc.answer with
      | none => simpa [answerSnapshotCb, hpc, hrd, hans] using ⟨h1, h2⟩
      | some a =>
        constructor
        · intro ts hts t ht hstop
          simp [answerSnapshotCb, hpc, hrd, hans]
        · intro ts hts t ht hen hstop
          simp only [answerSnapshotCb, hpc, hrd, hans, Option.getD_some] at hts ⊢
          exact h2 ts (by simpa using hts) t ht hen hstop

theorem pttInv_candidateSnapshotCb (cands : List Candidate) (s : AppState) (held : Bool)
    (h : PTTInv s held) : PTTInv ((candidateSnapshotCb cands s).getD s) held := by
  obtain ⟨h1, h2⟩ := h
  cases hpc : s.pc with
  | none =>
    cases hc : cands.isEmpty <;> simpa [candidateSnapshotCb, hpc, hc] using ⟨h1, h2⟩
  | some p =>
    constructor
    · intro ts hts t ht hstop
      simp only [candidateSnapshotCb, hpc, Option.getD_some] at hts ⊢
      exact h1 ts (by simpa using hts) t ht hstop
    · intro ts hts t ht hen hstop
      simp only [candidateSnapshotCb, hpc, Option.getD_some] at hts ⊢
      exact h2 ts (by simpa using hts) t ht hen hstop

theorem pttInv_connChange (ev : String) (s : AppState) (held : Bool)
    (h : PTTInv s held) : PTTInv (onConnectionStateChange ev s) held := by
  obtain ⟨h1, h2⟩ := h
  cases hpc : s.pc with
  | none => simpa [onConnectionStateChange, hpc] using ⟨h1, h2⟩
  | some p =>
    by_cases hc : ev = "connected"
    · constructor
      · intro ts hts t ht hstop
        simp [onConnectionStateChange, hpc, hc]
      · intro ts hts t ht hen hstop
        simp only [onConnectionStateChange, hpc, hc, if_true] at hts ⊢
        exact h2 ts (by simpa using hts) t ht hen hstop
    · by_cases hd : ev = "disconnected" ∨ ev = "failed"
      · simpa [onConnectionStateChange, hpc, hc, hd] using
          pttInv_hangUp { s with connectionStatus := "DISCONNECTED" } held
      · simpa [onConnectionStateChange, hpc, hc, hd] using ⟨h1, h2⟩

theorem pttInv_startTalk (s : AppState) (held : Bool)
    (h : PTTInv s held) : PTTInv (startTalk s) true := by
  obtain ⟨h1, h2⟩ := h
  cases hon : s.isOn with
  | false =>
    constructor
    · simpa [startTalk, hon] using h1
    · intro ts hts t ht hen hstop
      simp only [startTalk, hon, Bool.false_eq_true, if_false] at hts
      have := (h2 ts hts t ht hen hstop).2
      simp [hon] at this
  | true =>
    constructor
    · intro ts hts t ht hstop
      simp only [startTalk, hon, if_true] at hts ⊢
      cases hls : s.localStream with
      | none => rw [hls] at hts; simp at hts
      | some ts0 =>
        rw [hls] at hts
        have hmap : List.map (fun t => { t with enabled := true }) ts0 = ts := by
          simpa using hts
        subst hmap
        obtain ⟨t0, ht0, rfl⟩ := List.mem_map.mp ht
        exact h1 ts0 hls t0 ht0 (by simpa using hstop)
    · intro ts hts t ht hen hstop
      simp [startTalk, hon]

theorem pttInv_stopTalk (s : AppState) (held : Bool)
    (h : PTTInv s held) : PTTInv (stopTalk s) false := by
  obtain ⟨h1, h2⟩ := h
  cases hon : s.isOn with
  | false =>
    constructor
    · simpa [stopTalk, hon] using h1
    · intro ts hts t ht hen hstop
      simp only [stopTalk, hon, Bool.false_eq_true, if_false] at hts
      have := (h2 ts hts t ht hen hstop).2
      simp [hon] at this
  | true =>
    constructor
    · intro ts hts t ht hstop
      simp only [stopTalk, hon, if_true] at hts ⊢
      cases hls : s.localStream with
      | none => rw [hls] at hts; simp at hts
      | some ts0 =>
        rw [hls] at hts
        have hmap : List.map (fun t => { t with enabled := false }) ts0 = ts := by
          simpa using hts
        subst hmap
        obtain ⟨t0, ht0, rfl⟩ := List.mem_map.mp ht
        exact h1 ts0 hls t0 ht0 (by simpa using hstop)
    · intro ts hts t ht hen hstop
      simp only [stopTalk, hon, if_true] at hts
      cases hls : s.localStream with
      | none => rw [hls] at hts; simp at hts
      | some ts0 =>
        rw [hls] at hts
        have hmap : List.map (fun t => { t with enabled := false }) ts0 = ts := by
          simpa using hts
        subst hmap
        obtain ⟨t0, -, rfl⟩ := List.mem_map.mp ht
        simp at hen

theorem pttInv_adjustFrequency (delta : Int) (confirmOk : Bool) (s : AppState) (held : Bool)
    (h : PTTInv s held) : PTTInv (adjustFrequency delta confirmOk s) held := by
  obtain ⟨h1, h2⟩ := h
  by_cases hdis : s.connectionStatus = "DISCONNECTED"
  · constructor
    · intro ts hts t ht hstop
      simp only [adjustFrequency, hdis, if_true] at hts ⊢
      exact absurd hdis (h1 ts (by simpa using hts) t ht hstop)
    · intro ts hts t ht hen hstop
      simp only [adjustFrequency, hdis, if_true] at hts
      exact absurd hdis (h1 ts (by simpa using hts) t ht hstop)
  · by_cases hok : confirmOk = true
    · constructor
      · intro ts hts t ht hstop
        simp only [adjustFrequency, hdis, hok, if_false, if_true] at hts
        have hst := hangUp_stream_stopped s ts (by simpa using hts) t ht
        simp [hst] at hstop
      · intro ts hts t ht hen hstop
        simp only [adjustFrequency, hdis, hok, if_false, if_true] at hts
        have hst := hangUp_stream_stopped s ts (by simpa using hts) t ht
        simp [hst] at hstop
    · simpa [adjustFrequency, hdis, hok] using ⟨h1, h2⟩

theorem pttInv_step (w : World) (e : Event) (held : Bool)
    (h : PTTInv w.1 held) : PTTInv (step w e).1 (heldStep held e) := by
  obtain ⟨h1, h2⟩ := h
  cases e with
  | authChange u =>
    constructor
    · intro ts hts t ht hstop
      simp only [step] at hts ⊢
      exact h1 ts (by simpa using hts) t ht hstop
    · intro ts hts t ht hen hstop
      simp only [step] at hts ⊢
      exact h2 ts (by simpa using hts) t ht hen hstop
  | powerToggle inp =>
    by_cases hon : w.1.isOn = true
    · simpa [step, togglePower, hon, heldStep] using
        pttInv_hangUp { w.1 with isOn := false } held
    · have hoff : w.1.isOn = false := by simpa using hon
      simpa [step, togglePower, hoff, heldStep] using
        pttInv_powerOn inp w.1 w.2 held hoff ⟨h1, h2⟩
  | docSnap snap =>
    by_cases hsub : w.1.docSubActive = true
    · simpa [step, hsub, heldStep] using pttInv_answerSnapshotCb snap w.1 held ⟨h1, h2⟩
    · simpa [step, hsub, heldStep] using ⟨h1, h2⟩
  | candSnap cands =>
    by_cases hsub : w.1.candSubActive = true
    · simpa [step, hsub, heldStep] using pttInv_candidateSnapshotCb cands w.1 held ⟨h1, h2⟩
    · simpa [step, hsub, heldStep] using ⟨h1, h2⟩
  | connChange ev => simpa [step, heldStep] using pttInv_connChange ev w.1 held ⟨h1, h2⟩
  | startTalkEv => simpa [step, heldStep] using pttInv_startTalk w.1 held ⟨h1, h2⟩
  | stopTalkEv => simpa [step, heldStep] using pttInv_stopTalk w.1 held ⟨h1, h2⟩
  | adjustFreq d ok => simpa [step, heldStep] using pttInv_adjustFrequency d ok w.1 held ⟨h1, h2⟩
  | resetEv => simpa [step, resetChannel, heldStep] using pttInv_hangUp w.1 held

theorem pttInv_steps (evs : List Event) : ∀ (w : World) (held : Bool),
    PTTInv w.1 held → PTTInv (steps w evs).1 (heldAfter held evs) := by
  induction evs with
  | nil => exact fun w held h => h
  | cons e rest ih =>
    intro w held h
    simpa [steps, heldAfter, List.foldl] using
      ih (step w e) (heldStep held e) (pttInv_step w e held h)

/-- C10: after a successful join every local microphone track starts
disabled (muted), and across every execution a track can be enabled and
un-stopped only while the push-to-talk control is held — i.e. the last
push-to-talk handler to run was `startTalk`, not yet matched by its
`stopTalk`. -/
theorem ptt_gates_local_audio :
    (∀ (inp : JoinInputs) (s : AppState) (st : Store) (uid : String),
      s.user = some uid → inp.micOk = true →
      ∀ ts, (joinFrequency inp s st).1.localStream = some ts →
        ∀ t ∈ ts, t.enabled = false) ∧
    (∀ (st0 : Store) (evs : List Event) (ts : List Track) (t : Track),
      (steps (initialAppState, st0) evs).1.localStream = some ts → t ∈ ts →
      t.enabled = true → t.stopped = false → heldAfter false evs = true) := by
  constructor
  · intro inp s st uid hu hm ts hts t ht
    cases hof : (st.getDoc (callIdOfTenths s.frequency)).bind ChannelDoc.offer with
    | none =>
      simp only [joinFrequency, hu, hm, setupAudio, hof, if_true] at hts
      have hmap : List.map (fun t => { t with enabled := false }) inp.tracks = ts := by
        simpa using hts
      subst hmap
      obtain ⟨t0, -, rfl⟩ := List.mem_map.mp ht
      rfl
    | some o =>
      simp only [joinFrequency, hu, hm, setupAudio, hof, if_true] at hts
      have hmap : List.map (fun t => { t with enabled := false }) inp.tracks = ts := by
        simpa using hts
      subst hmap
      obtain ⟨t0, -, rfl⟩ := List.mem_map.mp ht
      rfl
  · intro st0 evs ts t hts ht hen hstop
    have hinv : PTTInv (initialAppState, st0).1 false := by
      constructor
      · intro ts0 hts0 t0 ht0 hstop0
        simp [initialAppState] at hts0
      · intro ts0 hts0 t0 ht0 hen0 hstop0
        simp [initialAppState] at hts0
    exact ((pttInv_steps evs (initialAppState, st0) false hinv).2 ts hts t ht hen hstop).1

theorem ptt_gates_local_audio_witness :
    (Track.mk false false).enabled = false ∧
    heldAfter false
      [Event.authChange (some "u"), Event.powerToggle sampleInputs, Event.startTalkEv] = true :=
  ⟨ptt_gates_local_audio.1 sampleInputs sampleUserState [] "u" rfl rfl
      [{ enabled := false, stopped := false }] (by decide)
      { enabled := false, stopped := false } (by decide),
    ptt_gates_local_audio.2 []
      [Event.authChange (some "u"), Event.powerToggle sampleInputs, Event.startTalkEv]
      [{ enabled := true, stopped := false }] { enabled := true, stopped := false }
      (by decide) (by decide) rfl rfl⟩
